import Mathlib

/-!
Verification of the MorphoMoss measurement pipeline (`src/analyze.py`).

The program is a single function `measure_tooth_length(image_path, scale)`
composing: image loading (`cv2.imread`), grayscale conversion
(`cv2.cvtColor BGR2GRAY`), Canny edge detection, contour extraction
(`cv2.findContours`), per-contour open arc length halved, arithmetic mean,
and optional scale multiplication; plus a `__main__` CLI block.

The OpenCV primitives are external library calls: `imread`, `Canny` and
`findContours` are kept abstract (fields of a `CvEnv` record), while the
numeric parts the program itself computes (`arcLength` per its documented
semantics, halving, `np.mean`, scaling, error raising) are embedded
concretely.  Pixel coordinates are integers; float arithmetic is modelled
by real numbers.
-/

namespace MorphoMoss

/-- A contour point: integer pixel coordinates, as produced by
`cv2.findContours`. -/
abbrev Point := ℤ × ℤ

/-- A contour: the ordered point list of one traced boundary. -/
abbrev Contour := List Point

/-- A loaded BGR colour image: a grid of (blue, green, red) byte triples,
as returned by `cv2.imread`. -/
abbrev Image := List (List (ℕ × ℕ × ℕ))

/-- A single-channel grayscale image. -/
abbrev GrayImage := List (List ℤ)

/-- A binary edge mask, as produced by `cv2.Canny`. -/
abbrev EdgeMask := List (List Bool)

/-- Euclidean distance between two pixel points (one polyline segment). -/
noncomputable def segLen (p q : Point) : ℝ :=
  Real.sqrt ((((q.1 - p.1 : ℤ) : ℝ)) ^ 2 + (((q.2 - p.2 : ℤ) : ℝ)) ^ 2)

/-- `cv2.arcLength(contour, closed=False)`: total length of the polyline
through the contour's points, not closed back to the start.  Embedded by
recursion over consecutive points. -/
noncomputable def arcLength : Contour → ℝ
  | [] => 0
  | [_] => 0
  | p :: q :: rest => segLen p q + arcLength (q :: rest)

/-- The spec's description of the same quantity: the sum of Euclidean
distances between consecutive points of the boundary, treated as an open
polyline. -/
noncomputable def openPerimeter (pts : Contour) : ℝ :=
  ((pts.zip pts.tail).map fun pq => segLen pq.1 pq.2).sum

/-- `np.mean` on a list of floats: sum divided by length. -/
noncomputable def npMean (xs : List ℝ) : ℝ := xs.sum / xs.length

/-- Modelled from the spec: luminance-weighted grayscale conversion
("standard perceptual weighting", the BT.601 weights
`0.299 R + 0.587 G + 0.114 B` used by the external `cv2.cvtColor
BGR2GRAY` call, rounded to the nearest integer).  The pixel triple is in
BGR channel order. -/
def luma (px : ℕ × ℕ × ℕ) : ℤ :=
  round ((299 * (px.2.2 : ℚ) + 587 * (px.2.1 : ℚ) + 114 * (px.1 : ℚ)) / 1000)

/-- Modelled from the spec: the grayscale conversion stage, applying the
luminance weighting to every pixel of the colour image. -/
def cvtColor (img : Image) : GrayImage :=
  img.map fun row => row.map luma

/-- The external OpenCV primitives the program calls but does not define:
the image decoder (`cv2.imread`, `none` when the path is not a decodable
image), the Canny edge detector with its two thresholds, and the external
contour extractor (`cv2.findContours` with `RETR_EXTERNAL`,
`CHAIN_APPROX_SIMPLE`). -/
structure CvEnv where
  imread : String → Option Image
  canny : GrayImage → ℕ → ℕ → EdgeMask
  findContours : EdgeMask → List Contour

/-- The errors `measure_tooth_length` raises: the `ValueError` on an
unloadable image (with its message) and the `RuntimeError` when no
contours are detected. -/
inductive MeasureError
  | loadError (msg : String)
  | noContoursError
  deriving DecidableEq

/-- `measure_tooth_length(image_path, scale_um_per_pixel)`: load the
image, convert to grayscale, run Canny with thresholds 50/150, extract
contours, take each contour's open arc length halved, fail if there are
none, average, and multiply by the scale factor when one is supplied. -/
noncomputable def measure_tooth_length (env : CvEnv) (image_path : String)
    (scale_um_per_pixel : Option ℝ) : Except MeasureError ℝ :=
  match env.imread image_path with
  | none => .error (.loadError ("Could not load image from " ++ image_path))
  | some img =>
    let gray := cvtColor img
    let edges := env.canny gray 50 150
    let contours := env.findContours edges
    let lengths := contours.map fun contour => arcLength contour / 2
    if lengths.isEmpty then
      .error .noContoursError
    else
      let avg_length_pixels := npMean lengths
      match scale_um_per_pixel with
      | some k => .ok (avg_length_pixels * k)
      | none => .ok avg_length_pixels

/-- The message carried by each exception, as `str(e)` renders it in the
CLI handler. -/
def errMessage : MeasureError → String
  | .loadError msg => msg
  | .noContoursError => "No teeth contours detected."

/-- Outcome of one run of the `__main__` block: a normal termination with
an exit code and the lines printed to stdout, or an uncaught exception
(traceback to stderr, nothing further on stdout). -/
inductive CliOutcome
  | exited (code : ℕ) (stdout : List String)
  | crashed (stdout : List String)
  deriving DecidableEq

/-- The try/except block of the `__main__` entry (`fmt2` stands for the
`:.2f` format conversion): run the measurement with the already-parsed
scale; on success print the result line (unit `micrometers` when a scale
was given, else `pixels`) and exit 0, on an exception print
`Error: <message>` and exit 1. -/
noncomputable def runMeasure (env : CvEnv) (fmt2 : ℝ → String)
    (image_path : String) (scale : Option ℝ) : CliOutcome :=
  match measure_tooth_length env image_path scale with
  | .ok length =>
    let unit := if scale.isSome then "micrometers" else "pixels"
    .exited 0 ["Average tooth length: " ++ fmt2 length ++ " " ++ unit]
  | .error e => .exited 1 ["Error: " ++ errMessage e]

/-- The `__main__` block of `analyze.py`.  `parseFloat` stands for
Python's `float(...)` (`none` when it raises).  With fewer than two
arguments it prints the usage line and exits 1; the scale argument is
parsed *outside* the try block, so a bad scale string crashes (uncaught
exception) before anything is printed to stdout; otherwise the try/except
body `runMeasure` runs. -/
noncomputable def cliMain (env : CvEnv) (parseFloat : String → Option ℝ)
    (fmt2 : ℝ → String) (argv : List String) : CliOutcome :=
  match argv with
  | _prog :: image_path :: [] => runMeasure env fmt2 image_path none
  | _prog :: image_path :: s :: _ =>
    match parseFloat s with
    | none => .crashed []
    | some k => runMeasure env fmt2 image_path (some k)
  | _ => .exited 1 ["Usage: python analyze.py <image_path> [scale_um_per_pixel]"]

/-! ### Concrete fixtures for evaluating the pipeline -/

/-- A small concrete colour image. -/
def testImage : Image := [[(10, 10, 10), (10, 10, 10)], [(10, 10, 10), (10, 10, 10)]]

/-- A concrete contour: a single 3–4–5 diagonal segment, so its open arc
length is exactly 5. -/
def diagContour : Contour := [(0, 0), (3, 4)]

/-- A concrete environment whose decoder always yields `img` and whose
contour stage always yields `cs`. -/
def envOf (img : Image) (cs : List Contour) : CvEnv :=
  { imread := fun _ => some img
    canny := fun _ _ _ => []
    findContours := fun _ => cs }

/-- A concrete environment whose decoder fails on every path. -/
def envNoImage : CvEnv :=
  { imread := fun _ => none
    canny := fun _ _ _ => []
    findContours := fun _ => [] }

/-- A `float(...)` stand-in that rejects every string. -/
def parseNone : String → Option ℝ := fun _ => none

/-- A trivial `:.2f` stand-in. -/
def fmt0 : ℝ → String := fun _ => "0.00"

/-- A concrete channel-equal (R=G=B) colour image, for the grayscale
no-op check. -/
def grayEqImage : Image := [[(7, 7, 7), (0, 0, 0)], [(255, 255, 255), (7, 7, 7)]]

/-! ### Helper lemmas -/

/-- The recursive arc length agrees with the spec's description: the sum
of Euclidean distances between consecutive points, open polyline. -/
theorem arcLength_eq_openPerimeter : ∀ pts : Contour, arcLength pts = openPerimeter pts
  | [] => by simp [arcLength, openPerimeter]
  | [p] => by simp [arcLength, openPerimeter]
  | p :: q :: rest => by
    have ih := arcLength_eq_openPerimeter (q :: rest)
    simp only [arcLength, openPerimeter, List.tail_cons, List.zip_cons_cons,
      List.map_cons, List.sum_cons] at ih ⊢
    rw [ih]

/-- Unfolding of the pipeline on a loadable image whose contour stage
yields at least one contour. -/
theorem measure_ok_of_contours (env : CvEnv) (path : String) (img : Image)
    (scale : Option ℝ) (hload : env.imread path = some img)
    (hne : env.findContours (env.canny (cvtColor img) 50 150) ≠ []) :
    measure_tooth_length env path scale =
      match scale with
      | some k => .ok (npMean ((env.findContours (env.canny (cvtColor img) 50 150)).map
          fun c => arcLength c / 2) * k)
      | none => .ok (npMean ((env.findContours (env.canny (cvtColor img) 50 150)).map
          fun c => arcLength c / 2)) := by
  unfold measure_tooth_length
  rw [hload]
  have hmap : ((env.findContours (env.canny (cvtColor img) 50 150)).map
      fun c => arcLength c / 2) ≠ [] := by
    simpa [List.map_eq_nil_iff] using hne
  have hfalse : ((env.findContours (env.canny (cvtColor img) 50 150)).map
      fun c => arcLength c / 2).isEmpty = false := by
    rw [Bool.eq_false_iff]
    intro h
    exact hmap (List.isEmpty_iff.mp h)
  simp only [hfalse, Bool.false_eq_true, if_false]

/-- Scaling commutes with the pipeline unconditionally: supplying a scale
factor multiplies the successful pixel result by it and leaves errors
untouched. -/
theorem measure_scale_eq_map (env : CvEnv) (path : String) (k : ℝ) :
    measure_tooth_length env path (some k) =
      Except.map (fun v => v * k) (measure_tooth_length env path none) := by
  unfold measure_tooth_length
  cases h : env.imread path with
  | none => rfl
  | some img =>
    by_cases he : ((env.findContours (env.canny (cvtColor img) 50 150)).map
        fun c => arcLength c / 2).isEmpty
    · simp only [he, if_true, Except.map]
    · simp only [he, Bool.false_eq_true, if_false, Except.map]

/-! ### Claim theorems -/

/-- C1: whenever the decoder succeeds and the edge mask yields at least
one contour, the pipeline returns, in pixel units, the arithmetic mean
over the contours of (open-polyline perimeter) / 2, the perimeter being
the sum of Euclidean distances between consecutive points with no closing
segment. -/
theorem C1_mean_of_half_open_perimeters (env : CvEnv) (path : String) (img : Image)
    (hload : env.imread path = some img)
    (hne : env.findContours (env.canny (cvtColor img) 50 150) ≠ []) :
    measure_tooth_length env path none =
      .ok (npMean ((env.findContours (env.canny (cvtColor img) 50 150)).map
        fun c => openPerimeter c / 2)) := by
  rw [measure_ok_of_contours env path img none hload hne]
  simp only [arcLength_eq_openPerimeter]

/-- Witness for C1: a concrete environment with one diagonal contour. -/
theorem C1_witness :
    (envOf testImage [diagContour]).imread "img.png" = some testImage ∧
    [diagContour] ≠ ([] : List Contour) ∧
    measure_tooth_length (envOf testImage [diagContour]) "img.png" none =
      .ok (npMean ([diagContour].map fun c => openPerimeter c / 2)) :=
  ⟨rfl, by simp,
    C1_mean_of_half_open_perimeters (envOf testImage [diagContour]) "img.png"
      testImage rfl (by simp [envOf])⟩

/-- C2: scale linearity — measuring with `scale = k` (any positive `k`)
returns exactly the pixel-unit result multiplied by `k`, and an erroring
pixel-unit run errors identically; with `scale = none` the pixel-unit
value is what is returned. -/
theorem C2_scale_linearity (env : CvEnv) (path : String) (k : ℝ) (hk : 0 < k) :
    measure_tooth_length env path (some k) =
      Except.map (fun v => v * k) (measure_tooth_length env path none) :=
  measure_scale_eq_map env path k

/-- Witness for C2: concrete environment, `k = 2`. -/
theorem C2_witness :
    (0 : ℝ) < 2 ∧
    measure_tooth_length (envOf testImage [diagContour]) "img.png" (some 2) =
      Except.map (fun v => v * 2) (measure_tooth_length (envOf testImage [diagContour]) "img.png" none) :=
  ⟨by norm_num, C2_scale_linearity (envOf testImage [diagContour]) "img.png" 2 (by norm_num)⟩

/-- C3: when the edge/contour stage detects zero contours, the pipeline
fails with the no-contours error (the `RuntimeError`), whatever the scale
argument, and returns no numeric result. -/
theorem C3_no_contours_error (env : CvEnv) (path : String) (img : Image)
    (scale : Option ℝ) (hload : env.imread path = some img)
    (hzero : env.findContours (env.canny (cvtColor img) 50 150) = []) :
    measure_tooth_length env path scale = .error .noContoursError := by
  unfold measure_tooth_length
  rw [hload]
  simp [hzero]

/-- Witness for C3: an environment whose contour stage yields nothing. -/
theorem C3_witness :
    (envOf testImage []).imread "blank.png" = some testImage ∧
    measure_tooth_length (envOf testImage []) "blank.png" none =
      .error .noContoursError :=
  ⟨rfl, C3_no_contours_error (envOf testImage []) "blank.png" testImage none rfl rfl⟩

/-- C4: when the decoder cannot produce an image from the path, the
pipeline fails with the load error (the `ValueError` carrying the path in
its message), whatever the scale argument, and returns no numeric
result. -/
theorem C4_load_error (env : CvEnv) (path : String) (scale : Option ℝ)
    (hload : env.imread path = none) :
    measure_tooth_length env path scale =
      .error (.loadError ("Could not load image from " ++ path)) := by
  unfold measure_tooth_length
  rw [hload]

/-- Witness for C4: the always-failing decoder. -/
theorem C4_witness :
    envNoImage.imread "missing.png" = none ∧
    measure_tooth_length envNoImage "missing.png" none =
      .error (.loadError ("Could not load image from " ++ "missing.png")) :=
  ⟨rfl, C4_load_error envNoImage "missing.png" none rfl⟩

/-- C6 counterexample: with scale factor `0` (non-positive), the function
does not fail — it returns the numeric result `0`.  No scale validation
and no `InvalidScaleError` exist in the source. -/
theorem C6_counterexample :
    measure_tooth_length (envOf testImage [diagContour]) "img.png" (some 0) =
      .ok 0 := by
  rw [measure_ok_of_contours (envOf testImage [diagContour]) "img.png" testImage
    (some 0) rfl (by simp [envOf])]
  simp

/-- C6 (amended): the source performs no validation of the scale factor:
a non-positive scale is multiplied through exactly like a positive one,
producing a numeric result (the pixel average times the scale) whenever
the pixel-unit run succeeds, instead of an `InvalidScaleError`. -/
theorem C6_amended_no_scale_validation (env : CvEnv) (path : String) (k : ℝ)
    (hk : k ≤ 0) :
    measure_tooth_length env path (some k) =
      Except.map (fun v => v * k) (measure_tooth_length env path none) :=
  measure_scale_eq_map env path k

/-- Witness for C6 (amended): concrete environment, `k = -1`. -/
theorem C6_witness :
    (-1 : ℝ) ≤ 0 ∧
    measure_tooth_length (envOf testImage [diagContour]) "img.png" (some (-1)) =
      Except.map (fun v => v * (-1)) (measure_tooth_length (envOf testImage [diagContour]) "img.png" none) :=
  ⟨by norm_num, C6_amended_no_scale_validation (envOf testImage [diagContour]) "img.png" (-1) (by norm_num)⟩

/-- Segment lengths are nonnegative. -/
theorem segLen_nonneg (p q : Point) : 0 ≤ segLen p q := Real.sqrt_nonneg _

/-- A segment between two distinct pixel points has positive length. -/
theorem segLen_pos (p q : Point) (h : p ≠ q) : 0 < segLen p q := by
  unfold segLen
  apply Real.sqrt_pos.mpr
  have h' : ((q.1 - p.1 : ℤ) : ℝ) ≠ 0 ∨ ((q.2 - p.2 : ℤ) : ℝ) ≠ 0 := by
    by_contra hc
    push_neg at hc
    obtain ⟨h1, h2⟩ := hc
    apply h
    have e1 : p.1 = q.1 := (sub_eq_zero.mp (by exact_mod_cast h1)).symm
    have e2 : p.2 = q.2 := (sub_eq_zero.mp (by exact_mod_cast h2)).symm
    exact Prod.ext_iff.mpr ⟨e1, e2⟩
  rcases h' with h' | h'
  · exact add_pos_of_pos_of_nonneg (pow_two_pos_of_ne_zero h') (sq_nonneg _)
  · exact add_pos_of_nonneg_of_pos (sq_nonneg _) (pow_two_pos_of_ne_zero h')

/-- Arc lengths are nonnegative. -/
theorem arcLength_nonneg : ∀ pts : Contour, 0 ≤ arcLength pts
  | [] => le_refl 0
  | [_] => le_refl 0
  | p :: q :: rest => add_nonneg (segLen_nonneg p q) (arcLength_nonneg (q :: rest))

/-- A contour containing two distinct consecutive points has positive arc
length. -/
theorem arcLength_pos (pts : Contour) (p q : Point)
    (hmem : (p, q) ∈ pts.zip pts.tail) (hne : p ≠ q) : 0 < arcLength pts := by
  rw [arcLength_eq_openPerimeter]
  unfold openPerimeter
  have hx : segLen p q ∈ (pts.zip pts.tail).map fun pq => segLen pq.1 pq.2 :=
    List.mem_map.mpr ⟨(p, q), hmem, rfl⟩
  have hnn : ∀ x ∈ (pts.zip pts.tail).map fun pq => segLen pq.1 pq.2, 0 ≤ x := by
    intro x hxm
    obtain ⟨pq, _, rfl⟩ := List.mem_map.mp hxm
    exact segLen_nonneg _ _
  exact lt_of_lt_of_le (segLen_pos p q hne) (List.single_le_sum hnn _ hx)

/-- The mean of a nonnegative list with a positive member is positive. -/
theorem npMean_pos (xs : List ℝ) (hnn : ∀ x ∈ xs, 0 ≤ x) (x : ℝ)
    (hx : x ∈ xs) (hpos : 0 < x) : 0 < npMean xs := by
  unfold npMean
  apply div_pos
  · exact lt_of_lt_of_le hpos (List.single_le_sum hnn x hx)
  · exact_mod_cast List.length_pos.mpr (List.ne_nil_of_mem hx)

/-- C5: on a valid (decodable) image whose contour stage yields at least
one genuine contour — one with two distinct consecutive points — the
pipeline returns a strictly positive value (finiteness is inherent to the
real-valued model of the computation). -/
theorem C5_positive_measurement (env : CvEnv) (path : String) (img : Image)
    (c : Contour) (p q : Point)
    (hload : env.imread path = some img)
    (hc : c ∈ env.findContours (env.canny (cvtColor img) 50 150))
    (hmem : (p, q) ∈ c.zip c.tail) (hne : p ≠ q) :
    ∃ v : ℝ, measure_tooth_length env path none = .ok v ∧ 0 < v := by
  have hcs : env.findContours (env.canny (cvtColor img) 50 150) ≠ [] :=
    List.ne_nil_of_mem hc
  refine ⟨_, measure_ok_of_contours env path img none hload hcs, ?_⟩
  refine npMean_pos _ ?_ (arcLength c / 2) (List.mem_map.mpr ⟨c, hc, rfl⟩)
    (div_pos (arcLength_pos c p q hmem hne) (by norm_num))
  intro x hxm
  obtain ⟨c', _, rfl⟩ := List.mem_map.mp hxm
  exact div_nonneg (arcLength_nonneg c') (by norm_num)

/-- Witness for C5: the single diagonal contour, whose two points are
distinct. -/
theorem C5_witness :
    ((0 : ℤ), (0 : ℤ)) ≠ ((3 : ℤ), (4 : ℤ)) ∧
    ∃ v : ℝ, measure_tooth_length (envOf testImage [diagContour]) "img.png" none =
      .ok v ∧ 0 < v :=
  ⟨by decide,
    C5_positive_measurement (envOf testImage [diagContour]) "img.png" testImage
      diagContour (0, 0) (3, 4) rfl (by simp [envOf, diagContour])
      (by simp [diagContour]) (by decide)⟩

/-- C7 counterexample: invoked with no image-path argument, the program
does exit with code 1, but the single line it prints is the usage banner,
whose first seven characters are not `Error: ` — so not every erroring
invocation prints an `Error: <message>` line. -/
theorem C7_counterexample :
    cliMain envNoImage parseNone fmt0 ["analyze.py"] =
      .exited 1 ["Usage: python analyze.py <image_path> [scale_um_per_pixel]"] ∧
    "Usage: python analyze.py <image_path> [scale_um_per_pixel]".data.take 7 ≠
      "Error: ".data :=
  ⟨rfl, by decide⟩

/-- C7 (amended): a missing image-path argument exits with code 1
printing the usage line (not an `Error:` line); an invocation whose
measurement raises (load failure or zero contours) exits with code 1
printing `Error: <message>`; a successful invocation exits with code 0
printing `Average tooth length: <formatted value> <unit>`, the unit being
`micrometers` when a scale argument was given and `pixels` otherwise. -/
theorem C7_cli_exit_codes_and_output (env : CvEnv) (pf : String → Option ℝ)
    (fmt2 : ℝ → String) (prog path s : String) (k v : ℝ) (e : MeasureError) :
    (cliMain env pf fmt2 [prog] =
      .exited 1 ["Usage: python analyze.py <image_path> [scale_um_per_pixel]"]) ∧
    (measure_tooth_length env path none = .error e →
      cliMain env pf fmt2 [prog, path] = .exited 1 ["Error: " ++ errMessage e]) ∧
    (measure_tooth_length env path none = .ok v →
      cliMain env pf fmt2 [prog, path] =
        .exited 0 ["Average tooth length: " ++ fmt2 v ++ " " ++ "pixels"]) ∧
    (pf s = some k → measure_tooth_length env path (some k) = .error e →
      cliMain env pf fmt2 [prog, path, s] = .exited 1 ["Error: " ++ errMessage e]) ∧
    (pf s = some k → measure_tooth_length env path (some k) = .ok v →
      cliMain env pf fmt2 [prog, path, s] =
        .exited 0 ["Average tooth length: " ++ fmt2 v ++ " " ++ "micrometers"]) := by
  refine ⟨rfl, ?_, ?_, ?_, ?_⟩
  · intro he
    show runMeasure env fmt2 path none = _
    unfold runMeasure
    rw [he]
  · intro hv
    show runMeasure env fmt2 path none = _
    unfold runMeasure
    rw [hv]
    rfl
  · intro hk he
    show (match pf s with
        | none => CliOutcome.crashed []
        | some k => runMeasure env fmt2 path (some k)) =
      CliOutcome.exited 1 ["Error: " ++ errMessage e]
    rw [hk]
    show runMeasure env fmt2 path (some k) = _
    unfold runMeasure
    rw [he]
  · intro hk hv
    show (match pf s with
        | none => CliOutcome.crashed []
        | some k => runMeasure env fmt2 path (some k)) =
      CliOutcome.exited 0 ["Average tooth length: " ++ fmt2 v ++ " " ++ "micrometers"]
    rw [hk]
    show runMeasure env fmt2 path (some k) = _
    unfold runMeasure
    rw [hv]
    rfl

/-- Witness for C7 (amended): a failing decoder makes the two-argument
invocation print the load error and exit 1. -/
theorem C7_witness :
    cliMain envNoImage parseNone fmt0 ["analyze.py", "missing.png"] =
      .exited 1 ["Error: " ++
        errMessage (.loadError ("Could not load image from " ++ "missing.png"))] :=
  (C7_cli_exit_codes_and_output envNoImage parseNone fmt0 "analyze.py"
    "missing.png" "2" 0 0
    (.loadError ("Could not load image from " ++ "missing.png"))).2.1 rfl

/-- C8: determinism — the pipeline is a pure function of the image source
and scale, so any two invocations on the same inputs produce the same
result. -/
theorem C8_deterministic (env : CvEnv) (path : String) (scale : Option ℝ)
    (r₁ r₂ : Except MeasureError ℝ)
    (h₁ : measure_tooth_length env path scale = r₁)
    (h₂ : measure_tooth_length env path scale = r₂) : r₁ = r₂ :=
  h₁.symm.trans h₂

/-- Witness for C8: two evaluations of the pipeline on the same concrete
input agree. -/
theorem C8_witness :
    measure_tooth_length (envOf testImage [diagContour]) "img.png" none =
      measure_tooth_length (envOf testImage [diagContour]) "img.png" none :=
  C8_deterministic (envOf testImage [diagContour]) "img.png" none _ _ rfl rfl

/-- The luminance weighting collapses to the identity on a channel-equal
pixel: the three weights sum to exactly 1. -/
theorem luma_eq_of_channels_equal (px : ℕ × ℕ × ℕ) (h1 : px.1 = px.2.1)
    (h2 : px.2.1 = px.2.2) : luma px = (px.1 : ℤ) := by
  unfold luma
  rw [← h2, ← h1]
  have : (299 * (px.1 : ℚ) + 587 * (px.1 : ℚ) + 114 * (px.1 : ℚ)) / 1000 =
      ((px.1 : ℕ) : ℚ) := by ring
  rw [this, round_natCast]

/-- C9: the grayscale conversion is a no-op on any 3-channel image whose
channels agree at every pixel: each output sample is the common channel
value of the corresponding input pixel. -/
theorem C9_grayscale_noop_on_equal_channels (img : Image)
    (h : ∀ row ∈ img, ∀ px ∈ row, px.1 = px.2.1 ∧ px.2.1 = px.2.2) :
    cvtColor img = img.map fun row => row.map fun px => (px.1 : ℤ) := by
  unfold cvtColor
  apply List.map_congr_left
  intro row hrow
  apply List.map_congr_left
  intro px hpx
  exact luma_eq_of_channels_equal px (h row hrow px hpx).1 (h row hrow px hpx).2

/-- Witness for C9: a concrete channel-equal image. -/
theorem C9_witness :
    (∀ row ∈ grayEqImage, ∀ px ∈ row, px.1 = px.2.1 ∧ px.2.1 = px.2.2) ∧
    cvtColor grayEqImage = grayEqImage.map fun row => row.map fun px => (px.1 : ℤ) :=
  ⟨by decide, C9_grayscale_noop_on_equal_channels grayEqImage (by decide)⟩

/-- C10: when a scale argument is present but not parseable as a float,
`float(sys.argv[2])` raises before the try/except block is entered: the
run ends as an uncaught exception with nothing printed to stdout — in
particular no `Error: <message>` line. -/
theorem C10_unparseable_scale_crashes_before_try (env : CvEnv)
    (pf : String → Option ℝ) (fmt2 : ℝ → String) (prog path s : String)
    (rest : List String) (hs : pf s = none) :
    cliMain env pf fmt2 (prog :: path :: s :: rest) = .crashed [] := by
  show (match pf s with
      | none => CliOutcome.crashed []
      | some k => runMeasure env fmt2 path (some k)) = CliOutcome.crashed []
  rw [hs]

/-- Witness for C10: the never-succeeding float parser. -/
theorem C10_witness :
    cliMain envNoImage parseNone fmt0 ["analyze.py", "img.png", "abc"] =
      .crashed [] :=
  C10_unparseable_scale_crashes_before_try envNoImage parseNone fmt0
    "analyze.py" "img.png" "abc" [] rfl

end MorphoMoss
